import Mathlib

/-!
A shallow embedding of the conversational state-machine agent implemented in
the repository file `src/agent.py` (class `AIAgent`): Python/JSON values as
they occur in a parsed model response, the `_call_llm` failure policy, and the
`run` control loop — state lookup, decision-field extraction, assistant
message recording, action dispatch and result routing, transition validation,
the terminal check, and input handling.  The model invocation itself is an
oracle parameter (`LLMRaw`), standard output is a trace of events, and
standard input is a scripted list of lines.
-/

/-- Python/JSON values as they occur in a parsed LLM response, in
`action_params`, and in action results. -/
inductive PyVal where
  | str (s : String)
  | int (n : Int)
  | bool (b : Bool)
  | none
  | list (xs : List PyVal)
  | dict (kvs : List (String × PyVal))

/-- Python truthiness, `if x:` — empty strings, zero, `False`, `None`, and
empty containers are falsy. -/
def PyVal.truthy : PyVal → Bool
  | .str s => !(s == "")
  | .int n => !(n == 0)
  | .bool b => b
  | .none => false
  | .list xs => !xs.isEmpty
  | .dict kvs => !kvs.isEmpty

/-- Python equality of a value against a string literal (`x == "lit"`): only
an equal `str` compares true; ints, bools, `None`, lists and dicts never
equal a string in Python. -/
def PyVal.eqStr : PyVal → String → Bool
  | .str t, s => t == s
  | _, _ => false

/-- Whether Python can hash the value: a membership test against a dict
(`x in some_dict`) raises `TypeError` on lists and dicts. -/
def PyVal.hashable : PyVal → Bool
  | .list _ => false
  | .dict _ => false
  | _ => true

mutual

/-- Python `repr` of a value, as used for elements inside containers by
`str`; the escaping Python applies inside a string `repr` is not modelled. -/
def PyVal.pyRepr : PyVal → String
  | .str s => "\x27" ++ s ++ "\x27"
  | .int n => toString n
  | .bool b => if b then "True" else "False"
  | .none => "None"
  | .list xs => "[" ++ PyVal.reprSeq xs ++ "]"
  | .dict kvs => "\x7b" ++ PyVal.reprItems kvs ++ "\x7d"

/-- Comma-separated `repr`s of the elements of a Python list. -/
def PyVal.reprSeq : List PyVal → String
  | [] => ""
  | [x] => x.pyRepr
  | x :: y :: xs => x.pyRepr ++ ", " ++ PyVal.reprSeq (y :: xs)

/-- Comma-separated `repr(key): repr(value)` items of a Python dict. -/
def PyVal.reprItems : List (String × PyVal) → String
  | [] => ""
  | [(k, v)] => "\x27" ++ k ++ "\x27: " ++ v.pyRepr
  | (k, v) :: kv :: kvs =>
      "\x27" ++ k ++ "\x27: " ++ v.pyRepr ++ ", " ++ PyVal.reprItems (kv :: kvs)

end

/-- Python `str` of a value, as interpolated by an f-string: a top-level
string is itself, every other value renders as its `repr`. -/
def PyVal.pyStr : PyVal → String
  | .str s => s
  | v => v.pyRepr

/-- A parsed JSON object / Python dict with string keys. -/
abbrev Dict := List (String × PyVal)

/-- Python `d.get(key, default)` on a string-keyed dict. -/
def pyGet (d : Dict) (k : String) (dflt : PyVal) : PyVal :=
  match d.lookup k with
  | some v => v
  | none => dflt

/-- Python `x in d` for a dict whose keys are the given strings: `TypeError`
on an unhashable `x`, otherwise a key-equality test (a non-string hashable
value never equals a string key). -/
def pyInStrKeys (keys : List String) : PyVal → Except String Bool
  | .str s => .ok (keys.contains s)
  | .list _ => .error "TypeError: unhashable type: \x27list\x27"
  | .dict _ => .error "TypeError: unhashable type: \x27dict\x27"
  | _ => .ok false

/-- Python `x in xs` for a list of strings: element-wise `==`, no hashing, so
never a `TypeError`; non-string values never equal a string element. -/
def pyInStrList (xs : List String) : PyVal → Bool
  | .str s => xs.contains s
  | _ => false

/-- A value read back as a string, with a fallback for the non-string cases
(used only where the calling branch guarantees the value is a string). -/
def PyVal.asStr : PyVal → String → String
  | .str s, _ => s
  | _, d => d

/-- One message of the primary conversation transcript: a role
("user", "assistant" or "system") and a content value. -/
structure Turn where
  role : String
  content : PyVal

/-- The mutable per-run state of `AIAgent`: `self.current_state`,
`self.conversation_history` and `self.search_history`. -/
structure AgentState where
  current_state : String
  conversation_history : List Turn
  search_history : List PyVal

/-- `self.conversation_history.append(turn)`. -/
def AgentState.pushTurn (st : AgentState) (t : Turn) : AgentState :=
  { st with conversation_history := st.conversation_history ++ [t] }

/-- `self.search_history.append(result)`. -/
def AgentState.pushSearch (st : AgentState) (r : PyVal) : AgentState :=
  { st with search_history := st.search_history ++ [r] }

/-- One `[states.X]` table of the TOML configuration, restricted to the
fields the engine branches on: `prompt` (read unconditionally at line 329)
and `transitions`, defaulting to the empty list when absent
(`state_config.get("transitions", [])`).  `temperature` and `model` are
omitted because the engine only forwards them to the API call. -/
structure StateSpec where
  prompt : String
  transitions : List String

/-- The loaded TOML configuration, restricted to what `run` reads:
`config.get("initial_state", "start")` and the `states` mapping. -/
structure Config where
  initial_state : Option String
  states : List (String × StateSpec)

/-- `self.current_state` as set by `__init__`:
`self.config.get("initial_state", "start")`, with empty histories. -/
def initAgent (cfg : Config) : AgentState :=
  ⟨cfg.initial_state.getD "start", [], []⟩

/-- Outcome of one completion request — the part of `_call_llm` outside the
embedding: either the API call raised (any exception, with message `e`), or
it returned text whose `json.loads` result is `some` parsed object, or
`none` when the text is not valid JSON. -/
inductive LLMRaw where
  | apiError (e : String)
  | response (parsed : Option Dict)

/-- The value `_call_llm` returns (`src/agent.py` lines 259-283): the parsed
dict on success; on a JSON decode failure or any exception during the API
call, a canned error decision — the prompt construction and logging inside
`_call_llm` neither alter agent state nor affect the returned value. -/
def callLLM : LLMRaw → Dict
  | .response (some d) => d
  | .response none =>
      [("action", .str "error"),
       ("message", .str "I apologize, but I encountered an error processing your request."),
       ("next_state", .str "error"),
       ("require_input", .str "1")]
  | .apiError e =>
      [("action", .str "error"),
       ("message", .str ("Error occurred: " ++ e)),
       ("next_state", .str "error"),
       ("require_input", .str "1")]

/-- Observable events of the loop, in program order: the LLM invocation,
each `print` to standard output, an action dispatch, the transition
decision, and a line read from standard input. -/
inductive Event where
  | llmCall
  | printLine (s : String)
  | dispatchAction (name : String)
  | transitionDecision (accepted : Bool)
  | readLine (line : String)

/-- A registered action callable: takes `action_params`, returns a result or
raises (the `Except.error` case). -/
abbrev ActionFn := PyVal → Except String PyVal

/-- `self.available_actions`: the registered name-to-callable mapping. -/
abbrev Actions := List (String × ActionFn)

/-- Result routing, `src/agent.py` lines 374-391: a truthy result of the
`search` action is appended to `search_history`; a truthy result of any
other action is appended to the conversation as a system turn labelled
`Action result: `; a falsy result changes nothing. -/
def routeResult (a : String) (action_result : PyVal) (st : AgentState) : AgentState :=
  if action_result.truthy then
    if a == "search" then st.pushSearch action_result
    else st.pushTurn ⟨"system", .str ("Action result: " ++ action_result.pyStr)⟩
  else st

/-- Action dispatch, `src/agent.py` lines 361-394:
`if action and action in self.available_actions:` — a falsy or unregistered
action is skipped; an unhashable action value raises `TypeError` at the
membership test; otherwise the callable runs on
`response.get("action_params", \x7b\x7d)` and its result is routed. -/
def dispatchPhase (acts : Actions) (response : Dict) (st : AgentState) :
    List Event × Except String AgentState :=
  let action := pyGet response "action" (.str "")
  if action.truthy then
    match action with
    | .list _ => ([], .error "TypeError: unhashable type: \x27list\x27")
    | .dict _ => ([], .error "TypeError: unhashable type: \x27dict\x27")
    | .str a =>
        match acts.lookup a with
        | some f =>
            let action_params := pyGet response "action_params" (.dict [])
            match f action_params with
            | .error e => ([.dispatchAction a], .error e)
            | .ok action_result => ([.dispatchAction a], .ok (routeResult a action_result st))
        | none => ([], .ok st)
    | _ => ([], .ok st)
  else ([], .ok st)

/-- Transition validation, `src/agent.py` lines 396-410:
`if next_state in self.config["states"] and (not allowed_transitions or
next_state in allowed_transitions):` — on acceptance `current_state` becomes
the proposed state, on rejection an error line is printed and
`current_state` is forced to "error"; an unhashable proposed value raises
`TypeError` at the dict membership test. -/
def transitionPhase (cfg : Config) (spec : StateSpec) (next_state : PyVal)
    (st : AgentState) : List Event × Except String AgentState :=
  let allowed_transitions := spec.transitions
  match pyInStrKeys (cfg.states.map Prod.fst) next_state with
  | .error e => ([], .error e)
  | .ok inStates =>
      if inStates && (allowed_transitions.isEmpty || pyInStrList allowed_transitions next_state) then
        ([.transitionDecision true],
         .ok { st with current_state := next_state.asStr st.current_state })
      else
        ([.printLine ("Error: Invalid transition from \x27" ++ st.current_state ++
            "\x27 to \x27" ++ next_state.pyStr ++ "\x27"),
          .transitionDecision false],
         .ok { st with current_state := "error" })

/-- Outcome of one iteration of the `while True:` loop: a fatal missing-state
break, an uncaught exception, a terminal-state break, or a normal
continuation carrying the remaining scripted input. -/
inductive StepOut where
  | fatal (st : AgentState) (trace : List Event)
  | raised (st : AgentState) (trace : List Event) (exn : String)
  | halted (st : AgentState) (trace : List Event)
  | next (st : AgentState) (trace : List Event) (inputs : List String)

/-- The agent state carried by a `StepOut`. -/
def StepOut.agentState : StepOut → AgentState
  | .fatal st _ => st
  | .raised st _ _ => st
  | .halted st _ => st
  | .next st _ _ => st

/-- The event trace carried by a `StepOut`. -/
def StepOut.trace : StepOut → List Event
  | .fatal _ tr => tr
  | .raised _ tr _ => tr
  | .halted _ tr => tr
  | .next _ tr _ => tr

/-- One iteration of `AIAgent.run`'s main loop (`src/agent.py` lines
306-431): state lookup (fatal break when missing), the LLM call, decision
field extraction with their defaults (lines 337-340), recording and printing
the assistant message (lines 352-359), action dispatch, transition
validation, the terminal check on the proposed `next_state` (line 413), and
the `require_input == "1"` input handling (lines 419-431).  Reading input
past the end of the script yields the empty line. -/
def step (cfg : Config) (acts : Actions) (st : AgentState) (resp : LLMRaw)
    (inputs : List String) : StepOut :=
  match cfg.states.lookup st.current_state with
  | none =>
      .fatal st
        [.printLine ("Error: State \x27" ++ st.current_state ++ "\x27 not found in configuration")]
  | some state_config =>
      let response := callLLM resp
      let message := pyGet response "message" (.str "")
      let next_state := pyGet response "next_state" (.str "")
      let require_input := pyGet response "require_input" (.str "1")
      let st1 := st.pushTurn ⟨"assistant", message⟩
      let tr1 : List Event := [.llmCall, .printLine ("Agent: " ++ message.pyStr)]
      match dispatchPhase acts response st1 with
      | (tr2, .error e) => .raised st1 (tr1 ++ tr2) e
      | (tr2, .ok st2) =>
          match transitionPhase cfg state_config next_state st2 with
          | (tr3, .error e) => .raised st2 (tr1 ++ tr2 ++ tr3) e
          | (tr3, .ok st3) =>
              if next_state.eqStr "exit" || next_state.eqStr "" then
                .halted st3 (tr1 ++ tr2 ++ tr3)
              else if require_input.eqStr "1" then
                .next (st3.pushTurn ⟨"user", .str (inputs.headD "")⟩)
                  (tr1 ++ tr2 ++ tr3 ++ [.readLine (inputs.headD "")]) inputs.tail
              else
                .next st3 (tr1 ++ tr2 ++ tr3) inputs

/-- How a whole run ended: fatal configuration error, uncaught exception,
terminal state, or the fuel bound of the embedding ran out (the Python loop
is `while True:`, so the fuel is an artifact of totality, not of the code). -/
inductive RunTermination where
  | fatalConfig
  | raised (exn : String)
  | halted
  | fuelOut

/-- Final state, accumulated trace and termination kind of a run. -/
structure RunOut where
  state : AgentState
  trace : List Event
  term : RunTermination

/-- The `while True:` loop of `AIAgent.run`, iterating `step`; the oracle
gives the outcome of the `k`-th completion request. -/
def runLoop (cfg : Config) (acts : Actions) (oracle : Nat → LLMRaw) :
    Nat → Nat → AgentState → List String → RunOut
  | 0, _, st, _ => ⟨st, [], .fuelOut⟩
  | fuel + 1, k, st, inputs =>
      match step cfg acts st (oracle k) inputs with
      | .fatal st1 tr => ⟨st1, tr, .fatalConfig⟩
      | .raised st1 tr e => ⟨st1, tr, .raised e⟩
      | .halted st1 tr => ⟨st1, tr, .halted⟩
      | .next st1 tr rest =>
          let r := runLoop cfg acts oracle fuel (k + 1) st1 rest
          ⟨r.state, tr ++ r.trace, r.term⟩

/-- `AIAgent.run` (`src/agent.py` lines 285-431): a truthy initial
`user_input` is appended as a user turn (lines 296-300), then the main loop
runs. -/
def run (cfg : Config) (acts : Actions) (st : AgentState)
    (user_input : Option String) (oracle : Nat → LLMRaw) (fuel : Nat)
    (inputs : List String) : RunOut :=
  let st1 :=
    match user_input with
    | some s => if s == "" then st else st.pushTurn ⟨"user", .str s⟩
    | none => st
  runLoop cfg acts oracle fuel 0 st1 inputs

/-- Whether an event is the model invocation. -/
def Event.isLlmCall : Event → Bool
  | .llmCall => true
  | _ => false

/-- Whether an event is a transition decision. -/
def Event.isTransitionDecision : Event → Bool
  | .transitionDecision _ => true
  | _ => false

/-- Whether an event is an action dispatch. -/
def Event.isDispatch : Event → Bool
  | .dispatchAction _ => true
  | _ => false

/-- Whether an event reads a line from standard input. -/
def Event.isReadLine : Event → Bool
  | .readLine _ => true
  | _ => false

/-- The transition-acceptance condition stated from the spec's words (§4.5
step 6), for comparison with the source-derived `transitionPhase`: the
proposed value names a real state of the configuration and the current
state's allow-list is empty or contains it. -/
def specAcceptsTransition (cfg : Config) (spec : StateSpec) (ns : PyVal) : Prop :=
  ∃ s, ns = PyVal.str s ∧ s ∈ cfg.states.map Prod.fst ∧
    (spec.transitions = [] ∨ s ∈ spec.transitions)

/-- Whether an event prints exactly the given line. -/
def Event.isPrintOf (s : String) : Event → Bool
  | .printLine t => t == s
  | _ => false

/-- Case analysis of `routeResult`: unchanged state, a search append, or a
system-turn append. -/
theorem routeResult_cases (a : String) (r : PyVal) (st : AgentState) :
    routeResult a r st = st ∨
    (routeResult a r st = st.pushSearch r ∧ r.truthy = true ∧ a = "search") ∨
    (routeResult a r st = st.pushTurn ⟨"system", .str ("Action result: " ++ r.pyStr)⟩ ∧
      r.truthy = true ∧ a ≠ "search") := by
  unfold routeResult
  by_cases ht : r.truthy = true
  · by_cases hs : a = "search"
    · subst hs
      refine Or.inr (Or.inl ⟨?_, ht, rfl⟩)
      simp [ht]
    · refine Or.inr (Or.inr ⟨?_, ht, hs⟩)
      simp [ht, hs]
  · have ht' : r.truthy = false := by
      cases h : r.truthy
      · rfl
      · exact absurd h ht
    left
    simp [ht']

/-- Exhaustive shape of the dispatch phase result. -/
theorem dispatchPhase_shape (acts : Actions) (response : Dict) (st : AgentState) :
    (dispatchPhase acts response st = ([], Except.ok st)) ∨
    (∃ a e, dispatchPhase acts response st = ([.dispatchAction a], Except.error e)) ∨
    (∃ a r, dispatchPhase acts response st = ([.dispatchAction a], Except.ok (routeResult a r st))) ∨
    (∃ msg, dispatchPhase acts response st = ([], Except.error msg)) := by
  unfold dispatchPhase
  dsimp only
  split
  · split
    · exact Or.inr (Or.inr (Or.inr ⟨_, rfl⟩))
    · exact Or.inr (Or.inr (Or.inr ⟨_, rfl⟩))
    · split
      · split
        · exact Or.inr (Or.inl ⟨_, _, rfl⟩)
        · exact Or.inr (Or.inr (Or.inl ⟨_, _, rfl⟩))
      · exact Or.inl rfl
    · exact Or.inl rfl
  · exact Or.inl rfl

/-- A successful dispatch phase only appends: the conversation gains at most
one non-assistant turn, the search history gains at most one entry,
`current_state` is untouched, and the trace is empty or one dispatch event. -/
theorem dispatchPhase_ok (acts : Actions) (response : Dict) (st : AgentState)
    (tr : List Event) (st2 : AgentState)
    (h : dispatchPhase acts response st = (tr, .ok st2)) :
    (∃ c, st2.conversation_history = st.conversation_history ++ c ∧
      c.countP (fun t => t.role == "assistant") = 0 ∧ c.length ≤ 1) ∧
    (∃ s, st2.search_history = st.search_history ++ s) ∧
    st2.current_state = st.current_state ∧
    (tr = [] ∨ ∃ a, tr = [.dispatchAction a]) := by
  have hid : ∀ stx : AgentState, stx = st2 →
      (∃ c, st2.conversation_history = stx.conversation_history ++ c ∧
        c.countP (fun t => t.role == "assistant") = 0 ∧ c.length ≤ 1) ∧
      (∃ s, st2.search_history = stx.search_history ++ s) ∧
      st2.current_state = stx.current_state := by
    intro stx he
    subst he
    exact ⟨⟨[], by simp, by simp, by simp⟩, ⟨[], by simp⟩, rfl⟩
  rcases dispatchPhase_shape acts response st with hs | ⟨a, e, hs⟩ | ⟨a, r, hs⟩ | ⟨msg, hs⟩
  · rw [hs] at h
    injection h with htr hres
    injection hres with hst
    exact ⟨(hid st hst).1, (hid st hst).2.1, (hid st hst).2.2, Or.inl htr.symm⟩
  · rw [hs] at h
    injection h with htr hres
    exact absurd hres (by simp)
  · rw [hs] at h
    injection h with htr hres
    injection hres with hst
    rcases routeResult_cases a r st with hc | ⟨hc, _, _⟩ | ⟨hc, _, _⟩
    · rw [hc] at hst
      exact ⟨(hid st hst).1, (hid st hst).2.1, (hid st hst).2.2, Or.inr ⟨a, htr.symm⟩⟩
    · rw [hc] at hst
      subst hst
      refine ⟨⟨[], by simp [AgentState.pushSearch], by simp, by simp⟩,
        ⟨[r], by simp [AgentState.pushSearch]⟩,
        by simp [AgentState.pushSearch], Or.inr ⟨a, htr.symm⟩⟩
    · rw [hc] at hst
      subst hst
      refine ⟨⟨[⟨"system", .str ("Action result: " ++ r.pyStr)⟩],
        by simp [AgentState.pushTurn], by simp [Turn.role], by simp⟩,
        ⟨[], by simp [AgentState.pushTurn]⟩,
        by simp [AgentState.pushTurn], Or.inr ⟨a, htr.symm⟩⟩
  · rw [hs] at h
    injection h with htr hres
    exact absurd hres (by simp)

/-- Evaluation of transition validation on a proposed string value: accepted
exactly when the string names a configured state and the allow-list is empty
or contains it. -/
theorem transitionPhase_str (cfg : Config) (spec : StateSpec) (s : String) (st : AgentState) :
    transitionPhase cfg spec (.str s) st =
      if (cfg.states.map Prod.fst).contains s &&
          (spec.transitions.isEmpty || spec.transitions.contains s) then
        ([.transitionDecision true], .ok { st with current_state := s })
      else
        ([.printLine ("Error: Invalid transition from \x27" ++ st.current_state ++
            "\x27 to \x27" ++ s ++ "\x27"),
          .transitionDecision false],
         .ok { st with current_state := "error" }) := rfl

/-- A hashable proposed value never makes the transition phase raise. -/
theorem transitionPhase_hashable (cfg : Config) (spec : StateSpec) (ns : PyVal)
    (st : AgentState) (hh : ns.hashable = true) :
    ∃ tr st3, transitionPhase cfg spec ns st = (tr, .ok st3) := by
  cases ns with
  | list xs => simp [PyVal.hashable] at hh
  | dict kvs => simp [PyVal.hashable] at hh
  | str s =>
      rw [transitionPhase_str]
      split
      · exact ⟨_, _, rfl⟩
      · exact ⟨_, _, rfl⟩
  | int n => exact ⟨_, _, rfl⟩
  | bool b => exact ⟨_, _, rfl⟩
  | none => exact ⟨_, _, rfl⟩

/-- A successful transition phase leaves both histories untouched and either
accepts (state becomes the proposed string, one accepting decision event) or
rejects (state forced to "error", an error line and a rejecting decision
event). -/
theorem transitionPhase_ok (cfg : Config) (spec : StateSpec) (ns : PyVal)
    (st : AgentState) (tr : List Event) (st3 : AgentState)
    (h : transitionPhase cfg spec ns st = (tr, .ok st3)) :
    st3.conversation_history = st.conversation_history ∧
    st3.search_history = st.search_history ∧
    ((tr = [.transitionDecision true] ∧ st3.current_state = ns.asStr st.current_state) ∨
      (∃ msg, tr = [.printLine msg, .transitionDecision false] ∧
        st3.current_state = "error")) := by
  unfold transitionPhase at h
  dsimp only at h
  split at h
  · exact absurd h (by simp)
  · split at h
    · injection h with htr hres
      injection hres with hst
      subst hst
      exact ⟨rfl, rfl, Or.inl ⟨htr.symm, rfl⟩⟩
    · injection h with htr hres
      injection hres with hst
      subst hst
      exact ⟨rfl, rfl, Or.inr ⟨_, htr.symm, rfl⟩⟩

/-- A missing current state short-circuits the iteration into a fatal break
before anything else happens. -/
theorem step_missing (cfg : Config) (acts : Actions) (st : AgentState)
    (resp : LLMRaw) (inputs : List String)
    (h : cfg.states.lookup st.current_state = none) :
    step cfg acts st resp inputs =
      .fatal st [.printLine ("Error: State \x27" ++ st.current_state ++
        "\x27 not found in configuration")] := by
  unfold step
  rw [h]

/-- An exception escaping the dispatch phase escapes the iteration, after the
assistant turn was appended and the message printed. -/
theorem step_raised_dispatch (cfg : Config) (acts : Actions) (st : AgentState)
    (resp : LLMRaw) (inputs : List String) (spec : StateSpec)
    (tr2 : List Event) (e : String)
    (hspec : cfg.states.lookup st.current_state = some spec)
    (hdisp : dispatchPhase acts (callLLM resp)
      (st.pushTurn ⟨"assistant", pyGet (callLLM resp) "message" (.str "")⟩) =
        (tr2, .error e)) :
    step cfg acts st resp inputs =
      .raised (st.pushTurn ⟨"assistant", pyGet (callLLM resp) "message" (.str "")⟩)
        ([.llmCall,
          .printLine ("Agent: " ++ (pyGet (callLLM resp) "message" (.str "")).pyStr)] ++ tr2)
        e := by
  unfold step
  rw [hspec]
  dsimp only
  rw [hdisp]

/-- An exception escaping the transition phase escapes the iteration. -/
theorem step_raised_trans (cfg : Config) (acts : Actions) (st : AgentState)
    (resp : LLMRaw) (inputs : List String) (spec : StateSpec)
    (tr2 tr3 : List Event) (st2 : AgentState) (e : String)
    (hspec : cfg.states.lookup st.current_state = some spec)
    (hdisp : dispatchPhase acts (callLLM resp)
      (st.pushTurn ⟨"assistant", pyGet (callLLM resp) "message" (.str "")⟩) =
        (tr2, .ok st2))
    (htrans : transitionPhase cfg spec (pyGet (callLLM resp) "next_state" (.str "")) st2 =
      (tr3, .error e)) :
    step cfg acts st resp inputs =
      .raised st2
        ([.llmCall,
          .printLine ("Agent: " ++ (pyGet (callLLM resp) "message" (.str "")).pyStr)] ++
          tr2 ++ tr3)
        e := by
  unfold step
  rw [hspec]
  dsimp only
  rw [hdisp]
  dsimp only
  rw [htrans]

/-- Evaluation of one complete iteration (state found, no exception):
terminal check on the proposed next state, then the input decision on
`require_input == "1"`. -/
theorem step_some (cfg : Config) (acts : Actions) (st : AgentState) (resp : LLMRaw)
    (inputs : List String) (spec : StateSpec) (tr2 tr3 : List Event)
    (st2 st3 : AgentState)
    (hspec : cfg.states.lookup st.current_state = some spec)
    (hdisp : dispatchPhase acts (callLLM resp)
      (st.pushTurn ⟨"assistant", pyGet (callLLM resp) "message" (.str "")⟩) =
        (tr2, .ok st2))
    (htrans : transitionPhase cfg spec (pyGet (callLLM resp) "next_state" (.str "")) st2 =
      (tr3, .ok st3)) :
    step cfg acts st resp inputs =
      (if (pyGet (callLLM resp) "next_state" (.str "")).eqStr "exit" ||
          (pyGet (callLLM resp) "next_state" (.str "")).eqStr "" then
        .halted st3 ([.llmCall,
          .printLine ("Agent: " ++ (pyGet (callLLM resp) "message" (.str "")).pyStr)] ++
          tr2 ++ tr3)
      else if (pyGet (callLLM resp) "require_input" (.str "1")).eqStr "1" then
        .next (st3.pushTurn ⟨"user", .str (inputs.headD "")⟩)
          ([.llmCall,
            .printLine ("Agent: " ++ (pyGet (callLLM resp) "message" (.str "")).pyStr)] ++
            tr2 ++ tr3 ++ [.readLine (inputs.headD "")])
          inputs.tail
      else
        .next st3 ([.llmCall,
          .printLine ("Agent: " ++ (pyGet (callLLM resp) "message" (.str "")).pyStr)] ++
          tr2 ++ tr3) inputs) := by
  unfold step
  rw [hspec]
  dsimp only
  rw [hdisp]
  dsimp only
  rw [htrans]

/-- C1: if the proposed `next_state` is the terminal sentinel "exit" or the
empty string, the iteration ends the run on the success path (`halted`),
whatever the transition validation decided — the terminal check at line 413
reads the proposed value, not the post-validation `current_state`. -/
theorem c1_terminal_check_uses_proposed (cfg : Config) (acts : Actions)
    (st : AgentState) (resp : LLMRaw) (inputs : List String) (spec : StateSpec)
    (tr2 : List Event) (st2 : AgentState)
    (hspec : cfg.states.lookup st.current_state = some spec)
    (hterm : pyGet (callLLM resp) "next_state" (.str "") = .str "exit" ∨
      pyGet (callLLM resp) "next_state" (.str "") = .str "")
    (hdisp : dispatchPhase acts (callLLM resp)
      (st.pushTurn ⟨"assistant", pyGet (callLLM resp) "message" (.str "")⟩) =
        (tr2, .ok st2)) :
    ∃ tr3 st3,
      transitionPhase cfg spec (pyGet (callLLM resp) "next_state" (.str "")) st2 =
        (tr3, .ok st3) ∧
      step cfg acts st resp inputs =
        .halted st3
          ([.llmCall,
            .printLine ("Agent: " ++ (pyGet (callLLM resp) "message" (.str "")).pyStr)] ++
            tr2 ++ tr3) := by
  have hh : (pyGet (callLLM resp) "next_state" (.str "")).hashable = true := by
    rcases hterm with h | h <;> rw [h] <;> rfl
  obtain ⟨tr3, st3, htrans⟩ := transitionPhase_hashable cfg spec _ st2 hh
  refine ⟨tr3, st3, htrans, ?_⟩
  rw [step_some cfg acts st resp inputs spec tr2 tr3 st2 st3 hspec hdisp htrans]
  have hcond : ((pyGet (callLLM resp) "next_state" (.str "")).eqStr "exit" ||
      (pyGet (callLLM resp) "next_state" (.str "")).eqStr "") = true := by
    rcases hterm with h | h <;> rw [h] <;> rfl
  split
  · rfl
  · rename_i hne
    exact absurd hcond hne

/-- Concrete instance of C1: from state "start" whose allow-list is
["middle"], a proposed "exit" (not a configured state, not allowed) is
rejected by validation, yet the run halts. -/
theorem c1_terminal_check_uses_proposed_witness :
    ∃ tr3 st3,
      transitionPhase ⟨some "start", [("start", ⟨"p", ["middle"]⟩), ("middle", ⟨"q", []⟩)]⟩
        ⟨"p", ["middle"]⟩
        (pyGet (callLLM (.response (some [("next_state", .str "exit"),
          ("message", .str "bye")]))) "next_state" (.str ""))
        (AgentState.pushTurn ⟨"start", [], []⟩
          ⟨"assistant", pyGet (callLLM (.response (some [("next_state", .str "exit"),
            ("message", .str "bye")]))) "message" (.str "")⟩) = (tr3, .ok st3) ∧
      step ⟨some "start", [("start", ⟨"p", ["middle"]⟩), ("middle", ⟨"q", []⟩)]⟩ []
          ⟨"start", [], []⟩
          (.response (some [("next_state", .str "exit"), ("message", .str "bye")])) [] =
        .halted st3
          ([.llmCall,
            .printLine ("Agent: " ++ (pyGet (callLLM (.response (some [("next_state", .str "exit"),
              ("message", .str "bye")]))) "message" (.str "")).pyStr)] ++
            [] ++ tr3) :=
  c1_terminal_check_uses_proposed
    ⟨some "start", [("start", ⟨"p", ["middle"]⟩), ("middle", ⟨"q", []⟩)]⟩ []
    ⟨"start", [], []⟩
    (.response (some [("next_state", .str "exit"), ("message", .str "bye")])) []
    ⟨"p", ["middle"]⟩ []
    (AgentState.pushTurn ⟨"start", [], []⟩
      ⟨"assistant", pyGet (callLLM (.response (some [("next_state", .str "exit"),
        ("message", .str "bye")]))) "message" (.str "")⟩)
    rfl (Or.inl rfl) rfl

/-- The spec's acceptance condition on a string coincides with the boolean
condition the code evaluates at line 398. -/
theorem specAccepts_iff_cond (cfg : Config) (spec : StateSpec) (s : String) :
    specAcceptsTransition cfg spec (.str s) ↔
      ((cfg.states.map Prod.fst).contains s &&
        (spec.transitions.isEmpty || spec.transitions.contains s)) = true := by
  unfold specAcceptsTransition
  constructor
  · rintro ⟨t, ht, hmem, hallow⟩
    have hts : s = t := by injection ht
    subst hts
    simp only [Bool.and_eq_true, Bool.or_eq_true, List.elem_iff, List.isEmpty_iff]
    exact ⟨hmem, hallow⟩
  · intro h
    simp only [Bool.and_eq_true, Bool.or_eq_true, List.elem_iff, List.isEmpty_iff] at h
    exact ⟨s, rfl, h.1, h.2⟩

/-- Characterization of a completed transition phase by the spec's
acceptance condition: acceptance records one accepting decision event and
sets `current_state` to the proposed string; anything else records the error
line plus a rejecting decision event and forces `current_state` to
"error". -/
theorem transitionPhase_char (cfg : Config) (spec : StateSpec) (ns : PyVal)
    (st2 st3 : AgentState) (tr3 : List Event)
    (hhash : ns.hashable = true)
    (htrans : transitionPhase cfg spec ns st2 = (tr3, .ok st3)) :
    (specAcceptsTransition cfg spec ns ∧
      ∃ s, ns = .str s ∧ tr3 = [.transitionDecision true] ∧
        st3 = { st2 with current_state := s }) ∨
    (¬ specAcceptsTransition cfg spec ns ∧
      (∃ msg, tr3 = [.printLine msg, .transitionDecision false]) ∧
      st3 = { st2 with current_state := "error" }) := by
  cases ns with
  | list xs => simp [PyVal.hashable] at hhash
  | dict kvs => simp [PyVal.hashable] at hhash
  | str s =>
      rw [transitionPhase_str] at htrans
      by_cases hc : ((cfg.states.map Prod.fst).contains s &&
          (spec.transitions.isEmpty || spec.transitions.contains s)) = true
      · rw [if_pos hc] at htrans
        injection htrans with htr hres
        injection hres with hst
        exact Or.inl ⟨(specAccepts_iff_cond cfg spec s).mpr hc, s, rfl, htr.symm, hst.symm⟩
      · rw [if_neg hc] at htrans
        injection htrans with htr hres
        injection hres with hst
        exact Or.inr ⟨fun hacc => hc ((specAccepts_iff_cond cfg spec s).mp hacc),
          ⟨_, htr.symm⟩, hst.symm⟩
  | int n =>
      have hred : transitionPhase cfg spec (.int n) st2 =
          ([.printLine ("Error: Invalid transition from \x27" ++ st2.current_state ++
              "\x27 to \x27" ++ (PyVal.int n).pyStr ++ "\x27"),
            .transitionDecision false],
           .ok { st2 with current_state := "error" }) := rfl
      rw [hred] at htrans
      injection htrans with htr hres
      injection hres with hst
      refine Or.inr ⟨?_, ⟨_, htr.symm⟩, hst.symm⟩
      rintro ⟨s, hs, _⟩
      exact PyVal.noConfusion hs
  | bool b =>
      have hred : transitionPhase cfg spec (.bool b) st2 =
          ([.printLine ("Error: Invalid transition from \x27" ++ st2.current_state ++
              "\x27 to \x27" ++ (PyVal.bool b).pyStr ++ "\x27"),
            .transitionDecision false],
           .ok { st2 with current_state := "error" }) := rfl
      rw [hred] at htrans
      injection htrans with htr hres
      injection hres with hst
      refine Or.inr ⟨?_, ⟨_, htr.symm⟩, hst.symm⟩
      rintro ⟨s, hs, _⟩
      exact PyVal.noConfusion hs
  | none =>
      have hred : transitionPhase cfg spec PyVal.none st2 =
          ([.printLine ("Error: Invalid transition from \x27" ++ st2.current_state ++
              "\x27 to \x27" ++ PyVal.none.pyStr ++ "\x27"),
            .transitionDecision false],
           .ok { st2 with current_state := "error" }) := rfl
      rw [hred] at htrans
      injection htrans with htr hres
      injection hres with hst
      refine Or.inr ⟨?_, ⟨_, htr.symm⟩, hst.symm⟩
      rintro ⟨s, hs, _⟩
      exact PyVal.noConfusion hs

/-- C2: in an iteration that reaches transition validation with a hashable
proposed value, the proposal is accepted exactly when it names a configured
state and the allow-list is empty or contains it; acceptance makes it the
current state, rejection forces the current state to "error", and either way
the iteration neither breaks fatally nor raises (the loop goes on or halts
at the separate terminal check). -/
theorem c2_transition_validation (cfg : Config) (acts : Actions) (st : AgentState)
    (resp : LLMRaw) (inputs : List String) (spec : StateSpec)
    (tr2 : List Event) (st2 : AgentState)
    (hspec : cfg.states.lookup st.current_state = some spec)
    (hdisp : dispatchPhase acts (callLLM resp)
      (st.pushTurn ⟨"assistant", pyGet (callLLM resp) "message" (.str "")⟩) =
        (tr2, .ok st2))
    (hhash : (pyGet (callLLM resp) "next_state" (.str "")).hashable = true) :
    ((∃ st4 tr4, step cfg acts st resp inputs = .halted st4 tr4) ∨
      (∃ st4 tr4 rest, step cfg acts st resp inputs = .next st4 tr4 rest)) ∧
    (specAcceptsTransition cfg spec (pyGet (callLLM resp) "next_state" (.str "")) ↔
      Event.transitionDecision true ∈ (step cfg acts st resp inputs).trace) ∧
    (∀ s, pyGet (callLLM resp) "next_state" (.str "") = .str s →
      specAcceptsTransition cfg spec (pyGet (callLLM resp) "next_state" (.str "")) →
      (step cfg acts st resp inputs).agentState.current_state = s) ∧
    (¬ specAcceptsTransition cfg spec (pyGet (callLLM resp) "next_state" (.str "")) →
      (step cfg acts st resp inputs).agentState.current_state = "error") := by
  obtain ⟨tr3, st3, htrans⟩ := transitionPhase_hashable cfg spec _ st2 hhash
  have hstep := step_some cfg acts st resp inputs spec tr2 tr3 st2 st3 hspec hdisp htrans
  have hchar := transitionPhase_char cfg spec _ st2 st3 tr3 hhash htrans
  obtain ⟨_, _, _, htr2⟩ := dispatchPhase_ok _ _ _ _ _ hdisp
  have hnotr2 : Event.transitionDecision true ∉ tr2 := by
    rcases htr2 with h | ⟨a, h⟩ <;> subst h <;> simp
  have hout :
      ((∃ st4 tr4, step cfg acts st resp inputs = .halted st4 tr4) ∨
        (∃ st4 tr4 rest, step cfg acts st resp inputs = .next st4 tr4 rest)) ∧
      (step cfg acts st resp inputs).agentState.current_state = st3.current_state ∧
      (Event.transitionDecision true ∈ (step cfg acts st resp inputs).trace ↔
        Event.transitionDecision true ∈ tr3) := by
    rw [hstep]
    by_cases hterm : ((pyGet (callLLM resp) "next_state" (.str "")).eqStr "exit" ||
        (pyGet (callLLM resp) "next_state" (.str "")).eqStr "") = true
    · rw [if_pos hterm]
      refine ⟨Or.inl ⟨_, _, rfl⟩, rfl, ?_⟩
      simp [StepOut.trace, hnotr2]
    · rw [if_neg hterm]
      by_cases hri : ((pyGet (callLLM resp) "require_input" (.str "1")).eqStr "1") = true
      · rw [if_pos hri]
        refine ⟨Or.inr ⟨_, _, _, rfl⟩, rfl, ?_⟩
        simp [StepOut.trace, hnotr2]
      · rw [if_neg hri]
        refine ⟨Or.inr ⟨_, _, _, rfl⟩, rfl, ?_⟩
        simp [StepOut.trace, hnotr2]
  obtain ⟨hshape, hcur, hmem⟩ := hout
  rcases hchar with ⟨hacc, s, hns, htr3, hst3⟩ | ⟨hnacc, ⟨msg, htr3⟩, hst3⟩
  · refine ⟨hshape, ?_, ?_, ?_⟩
    · rw [hmem, htr3]
      exact ⟨fun _ => by simp, fun _ => hacc⟩
    · intro t hnst _
      have hts : s = t := by
        rw [hns] at hnst
        injection hnst
      rw [hcur, hst3, ← hts]
    · intro hn
      exact absurd hacc hn
  · refine ⟨hshape, ?_, ?_, ?_⟩
    · rw [hmem, htr3]
      constructor
      · intro hacc
        exact absurd hacc hnacc
      · intro hin
        simp at hin
    · intro t hnst hacc
      exact absurd hacc hnacc
    · intro _
      rw [hcur, hst3]

/-- Concrete instance of C2 (the spec's §8 scenario): an unconfigured
proposed state "other" from state "middle" with an empty (unrestricted)
allow-list is rejected and the current state becomes "error". -/
theorem c2_transition_validation_witness :
    ((∃ st4 tr4, step ⟨some "start", [("middle", ⟨"q", []⟩), ("error", ⟨"e", []⟩)]⟩ []
        ⟨"middle", [], []⟩
        (.response (some [("next_state", .str "other"), ("require_input", .str "0")])) [] =
          .halted st4 tr4) ∨
      (∃ st4 tr4 rest, step ⟨some "start", [("middle", ⟨"q", []⟩), ("error", ⟨"e", []⟩)]⟩ []
        ⟨"middle", [], []⟩
        (.response (some [("next_state", .str "other"), ("require_input", .str "0")])) [] =
          .next st4 tr4 rest)) ∧
    (specAcceptsTransition ⟨some "start", [("middle", ⟨"q", []⟩), ("error", ⟨"e", []⟩)]⟩
        ⟨"q", []⟩
        (pyGet (callLLM (.response (some [("next_state", .str "other"),
          ("require_input", .str "0")]))) "next_state" (.str "")) ↔
      Event.transitionDecision true ∈
        (step ⟨some "start", [("middle", ⟨"q", []⟩), ("error", ⟨"e", []⟩)]⟩ []
          ⟨"middle", [], []⟩
          (.response (some [("next_state", .str "other"), ("require_input", .str "0")])) []).trace) ∧
    (∀ s, pyGet (callLLM (.response (some [("next_state", .str "other"),
        ("require_input", .str "0")]))) "next_state" (.str "") = .str s →
      specAcceptsTransition ⟨some "start", [("middle", ⟨"q", []⟩), ("error", ⟨"e", []⟩)]⟩
        ⟨"q", []⟩
        (pyGet (callLLM (.response (some [("next_state", .str "other"),
          ("require_input", .str "0")]))) "next_state" (.str "")) →
      (step ⟨some "start", [("middle", ⟨"q", []⟩), ("error", ⟨"e", []⟩)]⟩ []
        ⟨"middle", [], []⟩
        (.response (some [("next_state", .str "other"), ("require_input", .str "0")])) []).agentState.current_state = s) ∧
    (¬ specAcceptsTransition ⟨some "start", [("middle", ⟨"q", []⟩), ("error", ⟨"e", []⟩)]⟩
        ⟨"q", []⟩
        (pyGet (callLLM (.response (some [("next_state", .str "other"),
          ("require_input", .str "0")]))) "next_state" (.str "")) →
      (step ⟨some "start", [("middle", ⟨"q", []⟩), ("error", ⟨"e", []⟩)]⟩ []
        ⟨"middle", [], []⟩
        (.response (some [("next_state", .str "other"), ("require_input", .str "0")])) []).agentState.current_state = "error") :=
  c2_transition_validation ⟨some "start", [("middle", ⟨"q", []⟩), ("error", ⟨"e", []⟩)]⟩ []
    ⟨"middle", [], []⟩
    (.response (some [("next_state", .str "other"), ("require_input", .str "0")])) []
    ⟨"q", []⟩ []
    (AgentState.pushTurn ⟨"middle", [], []⟩
      ⟨"assistant", pyGet (callLLM (.response (some [("next_state", .str "other"),
        ("require_input", .str "0")]))) "message" (.str "")⟩)
    rfl rfl rfl

/-- C3: the model-invocation adapter is total — `callLLM` returns a decision
dict for every outcome — and on either failure mode (API exception or
non-JSON response text) the decision is the canned one: action "error", an
apology/error message, next state "error", and a `require_input` value that
makes the engine block for input. -/
theorem c3_call_llm_failure_policy :
    (∀ e : String,
      callLLM (.apiError e) =
        [("action", .str "error"),
         ("message", .str ("Error occurred: " ++ e)),
         ("next_state", .str "error"),
         ("require_input", .str "1")] ∧
      (pyGet (callLLM (.apiError e)) "require_input" (.str "1")).eqStr "1" = true ∧
      pyGet (callLLM (.apiError e)) "action" (.str "") = .str "error" ∧
      pyGet (callLLM (.apiError e)) "next_state" (.str "") = .str "error") ∧
    (callLLM (.response none) =
        [("action", .str "error"),
         ("message", .str "I apologize, but I encountered an error processing your request."),
         ("next_state", .str "error"),
         ("require_input", .str "1")] ∧
      (pyGet (callLLM (.response none)) "require_input" (.str "1")).eqStr "1" = true ∧
      pyGet (callLLM (.response none)) "action" (.str "") = .str "error" ∧
      pyGet (callLLM (.response none)) "next_state" (.str "") = .str "error") := by
  refine ⟨fun e => ⟨rfl, rfl, rfl, rfl⟩, rfl, rfl, rfl, rfl⟩

/-- Concrete instance of C3 at a specific transport failure. -/
theorem c3_call_llm_failure_policy_witness :
    callLLM (.apiError "connection refused") =
      [("action", .str "error"),
       ("message", .str ("Error occurred: " ++ "connection refused")),
       ("next_state", .str "error"),
       ("require_input", .str "1")] ∧
    (pyGet (callLLM (.apiError "connection refused")) "require_input" (.str "1")).eqStr "1" = true ∧
    pyGet (callLLM (.apiError "connection refused")) "action" (.str "") = .str "error" ∧
    pyGet (callLLM (.apiError "connection refused")) "next_state" (.str "") = .str "error" :=
  c3_call_llm_failure_policy.1 "connection refused"

/-- C4: a dispatched action with a truthy result routes by name — the
distinguished "search" action appends the raw result to the search history
and leaves the conversation untouched; any other registered action appends
exactly one system-role turn labelled "Action result: " to the conversation
and leaves the search history untouched. -/
theorem c4_action_result_routing (acts : Actions) (response : Dict) (st : AgentState)
    (a : String) (f : ActionFn) (r : PyVal)
    (ha : pyGet response "action" (.str "") = .str a)
    (hne : a ≠ "")
    (hf : acts.lookup a = some f)
    (hres : f (pyGet response "action_params" (.dict [])) = .ok r)
    (htruthy : r.truthy = true) :
    (a = "search" →
      dispatchPhase acts response st = ([.dispatchAction a], .ok (st.pushSearch r)) ∧
      (st.pushSearch r).conversation_history = st.conversation_history ∧
      (st.pushSearch r).search_history = st.search_history ++ [r]) ∧
    (a ≠ "search" →
      dispatchPhase acts response st =
        ([.dispatchAction a],
         .ok (st.pushTurn ⟨"system", .str ("Action result: " ++ r.pyStr)⟩)) ∧
      (st.pushTurn ⟨"system", .str ("Action result: " ++ r.pyStr)⟩).search_history =
        st.search_history ∧
      (st.pushTurn ⟨"system", .str ("Action result: " ++ r.pyStr)⟩).conversation_history =
        st.conversation_history ++ [⟨"system", .str ("Action result: " ++ r.pyStr)⟩]) := by
  have hd : dispatchPhase acts response st =
      ([.dispatchAction a], .ok (routeResult a r st)) := by
    unfold dispatchPhase
    dsimp only
    rw [ha]
    have htruthyA : (PyVal.str a).truthy = true := by
      simp [PyVal.truthy, hne]
    rw [if_pos htruthyA]
    dsimp only
    rw [hf]
    dsimp only
    rw [hres]
  constructor
  · intro hs
    subst hs
    refine ⟨?_, rfl, rfl⟩
    rw [hd]
    simp [routeResult, htruthy]
  · intro hs
    refine ⟨?_, rfl, rfl⟩
    rw [hd]
    simp [routeResult, htruthy, hs]

/-- Concrete instance of C4: a truthy "search" result goes only to the
search history, a truthy "calc" result goes only to the conversation as a
system turn. -/
theorem c4_action_result_routing_witness :
    (dispatchPhase [("search", fun _ => .ok (.str "found")), ("calc", fun _ => .ok (.str "42"))]
        [("action", .str "search")] ⟨"s", [], []⟩ =
      ([.dispatchAction "search"],
       .ok (AgentState.pushSearch ⟨"s", [], []⟩ (.str "found")))) ∧
    (dispatchPhase [("search", fun _ => .ok (.str "found")), ("calc", fun _ => .ok (.str "42"))]
        [("action", .str "calc")] ⟨"s", [], []⟩ =
      ([.dispatchAction "calc"],
       .ok (AgentState.pushTurn ⟨"s", [], []⟩
         ⟨"system", .str ("Action result: " ++ (PyVal.str "42").pyStr)⟩))) :=
  ⟨((c4_action_result_routing
      [("search", fun _ => .ok (.str "found")), ("calc", fun _ => .ok (.str "42"))]
      [("action", .str "search")] ⟨"s", [], []⟩ "search" (fun _ => .ok (.str "found"))
      (.str "found") rfl (by decide) rfl rfl rfl).1 rfl).1,
   ((c4_action_result_routing
      [("search", fun _ => .ok (.str "found")), ("calc", fun _ => .ok (.str "42"))]
      [("action", .str "calc")] ⟨"s", [], []⟩ "calc" (fun _ => .ok (.str "42"))
      (.str "42") rfl (by decide) rfl rfl rfl).2 (by decide)).1⟩

/-- C5: a dispatched action whose callable returns a falsy result mutates
neither history — the state comes back unchanged — and the phase ends
successfully with no output event, so the engine proceeds to transition
validation without surfacing the absence. -/
theorem c5_falsy_result_no_mutation (acts : Actions) (response : Dict) (st : AgentState)
    (a : String) (f : ActionFn) (r : PyVal)
    (ha : pyGet response "action" (.str "") = .str a)
    (hne : a ≠ "")
    (hf : acts.lookup a = some f)
    (hres : f (pyGet response "action_params" (.dict [])) = .ok r)
    (hfalsy : r.truthy = false) :
    dispatchPhase acts response st = ([.dispatchAction a], .ok st) ∧
    (∀ m, Event.printLine m ∉ (dispatchPhase acts response st).1) := by
  have hd : dispatchPhase acts response st =
      ([.dispatchAction a], .ok (routeResult a r st)) := by
    unfold dispatchPhase
    dsimp only
    rw [ha]
    have htruthyA : (PyVal.str a).truthy = true := by
      simp [PyVal.truthy, hne]
    rw [if_pos htruthyA]
    dsimp only
    rw [hf]
    dsimp only
    rw [hres]
  have hroute : routeResult a r st = st := by
    simp [routeResult, hfalsy]
  rw [hd, hroute]
  exact ⟨rfl, by simp⟩

/-- Concrete instance of C5: an action returning the empty string (falsy)
leaves the state untouched. -/
theorem c5_falsy_result_no_mutation_witness :
    dispatchPhase [("lookup", fun _ => .ok (.str ""))] [("action", .str "lookup")]
        ⟨"s", [⟨"user", .str "hi"⟩], [.str "old"]⟩ =
      ([.dispatchAction "lookup"], .ok ⟨"s", [⟨"user", .str "hi"⟩], [.str "old"]⟩) ∧
    (∀ m, Event.printLine m ∉
      (dispatchPhase [("lookup", fun _ => .ok (.str ""))] [("action", .str "lookup")]
        ⟨"s", [⟨"user", .str "hi"⟩], [.str "old"]⟩).1) :=
  c5_falsy_result_no_mutation [("lookup", fun _ => .ok (.str ""))]
    [("action", .str "lookup")] ⟨"s", [⟨"user", .str "hi"⟩], [.str "old"]⟩
    "lookup" (fun _ => .ok (.str "")) (.str "") rfl (by decide) rfl rfl rfl

/-- C8: a current state with no entry in the states mapping halts the run
immediately and fatally — the error is printed, the iteration makes no model
invocation, the state is left unchanged (in particular not routed to
"error"), and the loop body never runs again. -/
theorem c8_missing_state_fatal (cfg : Config) (acts : Actions) (st : AgentState)
    (resp : LLMRaw) (inputs : List String) (oracle : Nat → LLMRaw) (fuel k : Nat)
    (h : cfg.states.lookup st.current_state = none) :
    step cfg acts st resp inputs =
      .fatal st [.printLine ("Error: State \x27" ++ st.current_state ++
        "\x27 not found in configuration")] ∧
    (step cfg acts st resp inputs).trace.countP Event.isLlmCall = 0 ∧
    (step cfg acts st resp inputs).agentState = st ∧
    runLoop cfg acts oracle (fuel + 1) k st inputs =
      ⟨st, [.printLine ("Error: State \x27" ++ st.current_state ++
        "\x27 not found in configuration")], .fatalConfig⟩ := by
  have hstep := step_missing cfg acts st resp inputs h
  have hstep2 := step_missing cfg acts st (oracle k) inputs h
  refine ⟨hstep, ?_, ?_, ?_⟩
  · rw [hstep]
    simp [StepOut.trace, Event.isLlmCall]
  · rw [hstep]
    rfl
  · simp only [runLoop]
    rw [hstep2]

/-- Concrete instance of C8: an empty states mapping makes the first
iteration fatal. -/
theorem c8_missing_state_fatal_witness :
    step ⟨some "start", []⟩ [] ⟨"start", [], []⟩ (.response none) [] =
      .fatal ⟨"start", [], []⟩ [.printLine ("Error: State \x27" ++ "start" ++
        "\x27 not found in configuration")] ∧
    (step ⟨some "start", []⟩ [] ⟨"start", [], []⟩ (.response none) []).trace.countP
      Event.isLlmCall = 0 ∧
    (step ⟨some "start", []⟩ [] ⟨"start", [], []⟩ (.response none) []).agentState =
      ⟨"start", [], []⟩ ∧
    runLoop ⟨some "start", []⟩ [] (fun _ => .response none) 1 0 ⟨"start", [], []⟩ [] =
      ⟨⟨"start", [], []⟩, [.printLine ("Error: State \x27" ++ "start" ++
        "\x27 not found in configuration")], .fatalConfig⟩ :=
  c8_missing_state_fatal ⟨some "start", []⟩ [] ⟨"start", [], []⟩ (.response none) []
    (fun _ => .response none) 0 0 rfl

/-- C9: a registered action whose callable raises is not caught by the
engine — the exception escapes the iteration (and so the whole run), after
the assistant message was already appended and printed, with no transition
decision made and `current_state` unchanged. -/
theorem c9_action_exception_propagates (cfg : Config) (acts : Actions) (st : AgentState)
    (d : Dict) (inputs : List String) (spec : StateSpec) (a e : String) (f : ActionFn)
    (oracle : Nat → LLMRaw) (fuel k : Nat)
    (hspec : cfg.states.lookup st.current_state = some spec)
    (ha : pyGet d "action" (.str "") = .str a)
    (hne : a ≠ "")
    (hf : acts.lookup a = some f)
    (hraise : f (pyGet d "action_params" (.dict [])) = .error e)
    (horacle : oracle k = .response (some d)) :
    step cfg acts st (.response (some d)) inputs =
      .raised (st.pushTurn ⟨"assistant", pyGet d "message" (.str "")⟩)
        ([.llmCall, .printLine ("Agent: " ++ (pyGet d "message" (.str "")).pyStr)] ++
          [.dispatchAction a]) e ∧
    (step cfg acts st (.response (some d)) inputs).trace.countP
      Event.isTransitionDecision = 0 ∧
    (step cfg acts st (.response (some d)) inputs).agentState.current_state =
      st.current_state ∧
    (step cfg acts st (.response (some d)) inputs).agentState.conversation_history =
      st.conversation_history ++ [⟨"assistant", pyGet d "message" (.str "")⟩] ∧
    runLoop cfg acts oracle (fuel + 1) k st inputs =
      ⟨st.pushTurn ⟨"assistant", pyGet d "message" (.str "")⟩,
       [.llmCall, .printLine ("Agent: " ++ (pyGet d "message" (.str "")).pyStr),
        .dispatchAction a], .raised e⟩ := by
  have hdisp : dispatchPhase acts (callLLM (.response (some d)))
      (st.pushTurn ⟨"assistant", pyGet (callLLM (.response (some d))) "message" (.str "")⟩) =
        ([.dispatchAction a], .error e) := by
    show dispatchPhase acts d (st.pushTurn ⟨"assistant", pyGet d "message" (.str "")⟩) =
      ([.dispatchAction a], .error e)
    unfold dispatchPhase
    dsimp only
    rw [ha]
    have htruthyA : (PyVal.str a).truthy = true := by
      simp [PyVal.truthy, hne]
    rw [if_pos htruthyA]
    dsimp only
    rw [hf]
    dsimp only
    rw [hraise]
  have hstep := step_raised_dispatch cfg acts st (.response (some d)) inputs spec
    [.dispatchAction a] e hspec hdisp
  refine ⟨hstep, ?_, ?_, ?_, ?_⟩
  · rw [hstep]
    simp [StepOut.trace, Event.isTransitionDecision]
  · rw [hstep]
    rfl
  · rw [hstep]
    rfl
  · simp only [runLoop]
    rw [horacle, hstep]
    rfl

/-- Concrete instance of C9: action "boom" raises "fail"; the exception
escapes after the assistant turn "m" was appended and printed, and the run
terminates with it. -/
theorem c9_action_exception_propagates_witness :
    step ⟨some "start", [("start", ⟨"p", []⟩)]⟩ [("boom", fun _ => .error "fail")]
        ⟨"start", [], []⟩
        (.response (some [("action", .str "boom"), ("message", .str "m")])) [] =
      .raised (AgentState.pushTurn ⟨"start", [], []⟩
          ⟨"assistant", pyGet [("action", .str "boom"), ("message", .str "m")] "message" (.str "")⟩)
        ([.llmCall, .printLine ("Agent: " ++
            (pyGet [("action", .str "boom"), ("message", .str "m")] "message" (.str "")).pyStr)] ++
          [.dispatchAction "boom"]) "fail" ∧
    (step ⟨some "start", [("start", ⟨"p", []⟩)]⟩ [("boom", fun _ => .error "fail")]
        ⟨"start", [], []⟩
        (.response (some [("action", .str "boom"), ("message", .str "m")])) []).trace.countP
      Event.isTransitionDecision = 0 ∧
    (step ⟨some "start", [("start", ⟨"p", []⟩)]⟩ [("boom", fun _ => .error "fail")]
        ⟨"start", [], []⟩
        (.response (some [("action", .str "boom"), ("message", .str "m")])) []).agentState.current_state =
      AgentState.current_state ⟨"start", [], []⟩ ∧
    (step ⟨some "start", [("start", ⟨"p", []⟩)]⟩ [("boom", fun _ => .error "fail")]
        ⟨"start", [], []⟩
        (.response (some [("action", .str "boom"), ("message", .str "m")])) []).agentState.conversation_history =
      AgentState.conversation_history ⟨"start", [], []⟩ ++
        [⟨"assistant", pyGet [("action", .str "boom"), ("message", .str "m")] "message" (.str "")⟩] ∧
    runLoop ⟨some "start", [("start", ⟨"p", []⟩)]⟩ [("boom", fun _ => .error "fail")]
        (fun _ => .response (some [("action", .str "boom"), ("message", .str "m")])) 1 0
        ⟨"start", [], []⟩ [] =
      ⟨AgentState.pushTurn ⟨"start", [], []⟩
          ⟨"assistant", pyGet [("action", .str "boom"), ("message", .str "m")] "message" (.str "")⟩,
       [.llmCall, .printLine ("Agent: " ++
          (pyGet [("action", .str "boom"), ("message", .str "m")] "message" (.str "")).pyStr),
        .dispatchAction "boom"], .raised "fail"⟩ :=
  c9_action_exception_propagates ⟨some "start", [("start", ⟨"p", []⟩)]⟩
    [("boom", fun _ => .error "fail")] ⟨"start", [], []⟩
    [("action", .str "boom"), ("message", .str "m")] [] ⟨"p", []⟩ "boom" "fail"
    (fun _ => .error "fail")
    (fun _ => .response (some [("action", .str "boom"), ("message", .str "m")])) 0 0
    rfl rfl (by decide) rfl rfl rfl

/-- Whatever one iteration does, both histories of the resulting state are
extensions of the starting ones. -/
theorem step_extends (cfg : Config) (acts : Actions) (st : AgentState) (resp : LLMRaw)
    (inputs : List String) :
    (∃ c, (step cfg acts st resp inputs).agentState.conversation_history =
      st.conversation_history ++ c) ∧
    (∃ s, (step cfg acts st resp inputs).agentState.search_history =
      st.search_history ++ s) := by
  cases hlook : cfg.states.lookup st.current_state with
  | none =>
      rw [step_missing cfg acts st resp inputs hlook]
      exact ⟨⟨[], by simp [StepOut.agentState]⟩, ⟨[], by simp [StepOut.agentState]⟩⟩
  | some spec =>
      have h1 : (st.pushTurn ⟨"assistant", pyGet (callLLM resp) "message" (.str "")⟩).conversation_history =
          st.conversation_history ++ [⟨"assistant", pyGet (callLLM resp) "message" (.str "")⟩] := rfl
      have h1s : (st.pushTurn ⟨"assistant", pyGet (callLLM resp) "message" (.str "")⟩).search_history =
          st.search_history := rfl
      cases hd : dispatchPhase acts (callLLM resp)
          (st.pushTurn ⟨"assistant", pyGet (callLLM resp) "message" (.str "")⟩) with
      | mk tr2 res2 =>
          cases res2 with
          | error e =>
              rw [step_raised_dispatch cfg acts st resp inputs spec tr2 e hlook hd]
              refine ⟨⟨[⟨"assistant", pyGet (callLLM resp) "message" (.str "")⟩], h1⟩, ⟨[], ?_⟩⟩
              show (st.pushTurn ⟨"assistant", pyGet (callLLM resp) "message" (.str "")⟩).search_history = _
              rw [h1s]
              simp
          | ok st2 =>
              obtain ⟨⟨c2, hc2, _, _⟩, ⟨s2, hs2⟩, _, _⟩ := dispatchPhase_ok _ _ _ _ _ hd
              cases ht : transitionPhase cfg spec (pyGet (callLLM resp) "next_state" (.str "")) st2 with
              | mk tr3 res3 =>
                  cases res3 with
                  | error e =>
                      rw [step_raised_trans cfg acts st resp inputs spec tr2 tr3 st2 e hlook hd ht]
                      refine ⟨⟨[⟨"assistant", pyGet (callLLM resp) "message" (.str "")⟩] ++ c2, ?_⟩, ⟨s2, ?_⟩⟩
                      · show st2.conversation_history = _
                        rw [hc2, h1, List.append_assoc]
                      · show st2.search_history = _
                        rw [hs2, h1s]
                  | ok st3 =>
                      obtain ⟨hconv3, hsearch3, _⟩ := transitionPhase_ok _ _ _ _ _ _ ht
                      rw [step_some cfg acts st resp inputs spec tr2 tr3 st2 st3 hlook hd ht]
                      split
                      · refine ⟨⟨[⟨"assistant", pyGet (callLLM resp) "message" (.str "")⟩] ++ c2, ?_⟩, ⟨s2, ?_⟩⟩
                        · show st3.conversation_history = _
                          rw [hconv3, hc2, h1, List.append_assoc]
                        · show st3.search_history = _
                          rw [hsearch3, hs2, h1s]
                      · split
                        · refine ⟨⟨[⟨"assistant", pyGet (callLLM resp) "message" (.str "")⟩] ++ c2 ++
                            [⟨"user", .str (inputs.headD "")⟩], ?_⟩, ⟨s2, ?_⟩⟩
                          · show st3.conversation_history ++ [(⟨"user", .str (inputs.headD "")⟩ : Turn)] = _
                            rw [hconv3, hc2, h1]
                            simp [List.append_assoc]
                          · show st3.search_history = _
                            rw [hsearch3, hs2, h1s]
                        · refine ⟨⟨[⟨"assistant", pyGet (callLLM resp) "message" (.str "")⟩] ++ c2, ?_⟩, ⟨s2, ?_⟩⟩
                          · show st3.conversation_history = _
                            rw [hconv3, hc2, h1, List.append_assoc]
                          · show st3.search_history = _
                            rw [hsearch3, hs2, h1s]

/-- Iterating the loop from any point only extends both histories. -/
theorem runLoop_extends (cfg : Config) (acts : Actions) (oracle : Nat → LLMRaw) :
    ∀ (fuel k : Nat) (st : AgentState) (inputs : List String),
      (∃ c, (runLoop cfg acts oracle fuel k st inputs).state.conversation_history =
        st.conversation_history ++ c) ∧
      (∃ s, (runLoop cfg acts oracle fuel k st inputs).state.search_history =
        st.search_history ++ s) := by
  intro fuel
  induction fuel with
  | zero =>
      intro k st inputs
      exact ⟨⟨[], by simp [runLoop]⟩, ⟨[], by simp [runLoop]⟩⟩
  | succ n ih =>
      intro k st inputs
      obtain ⟨⟨c1, hc1⟩, ⟨s1, hs1⟩⟩ := step_extends cfg acts st (oracle k) inputs
      simp only [runLoop]
      cases hstep : step cfg acts st (oracle k) inputs with
      | fatal st1 tr =>
          rw [hstep] at hc1 hs1
          exact ⟨⟨c1, hc1⟩, ⟨s1, hs1⟩⟩
      | raised st1 tr e =>
          rw [hstep] at hc1 hs1
          exact ⟨⟨c1, hc1⟩, ⟨s1, hs1⟩⟩
      | halted st1 tr =>
          rw [hstep] at hc1 hs1
          exact ⟨⟨c1, hc1⟩, ⟨s1, hs1⟩⟩
      | next st1 tr rest =>
          rw [hstep] at hc1 hs1
          dsimp only [StepOut.agentState] at hc1 hs1
          obtain ⟨⟨c2, hc2⟩, ⟨s2, hs2⟩⟩ := ih (k + 1) st1 rest
          refine ⟨⟨c1 ++ c2, ?_⟩, ⟨s1 ++ s2, ?_⟩⟩
          · show (runLoop cfg acts oracle n (k + 1) st1 rest).state.conversation_history = _
            rw [hc2, hc1, List.append_assoc]
          · show (runLoop cfg acts oracle n (k + 1) st1 rest).state.search_history = _
            rw [hs2, hs1, List.append_assoc]

/-- C7: both histories are append-only for the life of a run — from any
point of the loop, and for a whole `run` call including its initial-input
handling, the final value of each history is the starting value plus a
suffix; nothing is ever removed or modified. -/
theorem c7_histories_append_only (cfg : Config) (acts : Actions) (oracle : Nat → LLMRaw) :
    (∀ (fuel k : Nat) (st : AgentState) (inputs : List String),
      (∃ c, (runLoop cfg acts oracle fuel k st inputs).state.conversation_history =
        st.conversation_history ++ c) ∧
      (∃ s, (runLoop cfg acts oracle fuel k st inputs).state.search_history =
        st.search_history ++ s)) ∧
    (∀ (st : AgentState) (u : Option String) (fuel : Nat) (inputs : List String),
      (∃ c, (run cfg acts st u oracle fuel inputs).state.conversation_history =
        st.conversation_history ++ c) ∧
      (∃ s, (run cfg acts st u oracle fuel inputs).state.search_history =
        st.search_history ++ s)) := by
  refine ⟨runLoop_extends cfg acts oracle, ?_⟩
  intro st u fuel inputs
  unfold run
  cases u with
  | none => exact runLoop_extends cfg acts oracle fuel 0 st inputs
  | some s =>
      dsimp only
      by_cases hse : (s == "") = true
      · rw [if_pos hse]
        exact runLoop_extends cfg acts oracle fuel 0 st inputs
      · rw [if_neg hse]
        obtain ⟨⟨c1, hc1⟩, ⟨s1, hs1⟩⟩ :=
          runLoop_extends cfg acts oracle fuel 0 (st.pushTurn ⟨"user", .str s⟩) inputs
        refine ⟨⟨[⟨"user", .str s⟩] ++ c1, ?_⟩, ⟨s1, ?_⟩⟩
        · rw [hc1]
          show (st.conversation_history ++ [(⟨"user", .str s⟩ : Turn)]) ++ c1 = _
          rw [List.append_assoc]
        · rw [hs1]
          rfl

/-- C10: in a non-halting iteration the engine blocks for one line of input
(appending it as a user turn) exactly when the decision's `require_input`
field is the string "1"; an absent field defaults to "1" (so it blocks),
while the boolean true, the string "true" or the number 1 all fail the
`== "1"` comparison and the loop proceeds without reading input. -/
theorem c10_require_input_exact_string (cfg : Config) (acts : Actions) (st : AgentState)
    (resp : LLMRaw) (inputs : List String) (spec : StateSpec)
    (tr2 : List Event) (st2 : AgentState)
    (hspec : cfg.states.lookup st.current_state = some spec)
    (hdisp : dispatchPhase acts (callLLM resp)
      (st.pushTurn ⟨"assistant", pyGet (callLLM resp) "message" (.str "")⟩) =
        (tr2, .ok st2))
    (hhash : (pyGet (callLLM resp) "next_state" (.str "")).hashable = true)
    (hterm1 : (pyGet (callLLM resp) "next_state" (.str "")).eqStr "exit" = false)
    (hterm2 : (pyGet (callLLM resp) "next_state" (.str "")).eqStr "" = false) :
    ((pyGet (callLLM resp) "require_input" (.str "1")).eqStr "1" = true →
      ∃ tr3 st3,
        transitionPhase cfg spec (pyGet (callLLM resp) "next_state" (.str "")) st2 =
          (tr3, .ok st3) ∧
        step cfg acts st resp inputs =
          .next (st3.pushTurn ⟨"user", .str (inputs.headD "")⟩)
            ([.llmCall,
              .printLine ("Agent: " ++ (pyGet (callLLM resp) "message" (.str "")).pyStr)] ++
              tr2 ++ tr3 ++ [.readLine (inputs.headD "")]) inputs.tail) ∧
    ((pyGet (callLLM resp) "require_input" (.str "1")).eqStr "1" = false →
      ∃ tr3 st3,
        transitionPhase cfg spec (pyGet (callLLM resp) "next_state" (.str "")) st2 =
          (tr3, .ok st3) ∧
        step cfg acts st resp inputs =
          .next st3
            ([.llmCall,
              .printLine ("Agent: " ++ (pyGet (callLLM resp) "message" (.str "")).pyStr)] ++
              tr2 ++ tr3) inputs ∧
        (∀ l, Event.readLine l ∉ (step cfg acts st resp inputs).trace)) ∧
    (∀ d : Dict, d.lookup "require_input" = none →
      pyGet d "require_input" (.str "1") = .str "1") ∧
    (PyVal.str "1").eqStr "1" = true ∧
    (PyVal.bool true).eqStr "1" = false ∧
    (PyVal.str "true").eqStr "1" = false ∧
    (PyVal.int 1).eqStr "1" = false := by
  obtain ⟨tr3, st3, htrans⟩ := transitionPhase_hashable cfg spec _ st2 hhash
  have hstep := step_some cfg acts st resp inputs spec tr2 tr3 st2 st3 hspec hdisp htrans
  have hbterm : ((pyGet (callLLM resp) "next_state" (.str "")).eqStr "exit" ||
      (pyGet (callLLM resp) "next_state" (.str "")).eqStr "") = false := by
    rw [hterm1, hterm2]
    rfl
  rw [if_neg (by simp [hbterm])] at hstep
  obtain ⟨_, _, _, htr2⟩ := dispatchPhase_ok _ _ _ _ _ hdisp
  obtain ⟨_, _, htr3⟩ := transitionPhase_ok _ _ _ _ _ _ htrans
  refine ⟨?_, ?_, fun d hd => by simp [pyGet, hd], rfl, rfl, ?_, rfl⟩
  · intro hri
    rw [if_pos hri] at hstep
    exact ⟨tr3, st3, htrans, hstep⟩
  · intro hri
    rw [if_neg (by simp [hri])] at hstep
    refine ⟨tr3, st3, htrans, hstep, ?_⟩
    intro l
    rw [hstep]
    have hn2 : Event.readLine l ∉ tr2 := by
      rcases htr2 with h | ⟨a, h⟩ <;> subst h <;> simp
    have hn3 : Event.readLine l ∉ tr3 := by
      rcases htr3 with ⟨h, _⟩ | ⟨msg, h, _⟩ <;> subst h <;> simp
    simp [StepOut.trace, hn2, hn3]
  · show ("true" == "1") = false
    rfl

/-- Concrete instance of C10: `require_input` equal to "1" makes the
iteration read one line ("hello") and append it as a user turn. -/
theorem c10_require_input_exact_string_witness :
    ∃ tr3 st3,
      transitionPhase ⟨some "start", [("start", ⟨"p", []⟩), ("middle", ⟨"q", []⟩)]⟩
        ⟨"p", []⟩
        (pyGet (callLLM (.response (some [("next_state", .str "middle"),
          ("require_input", .str "1"), ("message", .str "hi")]))) "next_state" (.str ""))
        (AgentState.pushTurn ⟨"start", [], []⟩
          ⟨"assistant", pyGet (callLLM (.response (some [("next_state", .str "middle"),
            ("require_input", .str "1"), ("message", .str "hi")]))) "message" (.str "")⟩) =
        (tr3, .ok st3) ∧
      step ⟨some "start", [("start", ⟨"p", []⟩), ("middle", ⟨"q", []⟩)]⟩ []
          ⟨"start", [], []⟩
          (.response (some [("next_state", .str "middle"),
            ("require_input", .str "1"), ("message", .str "hi")])) ["hello"] =
        .next (st3.pushTurn ⟨"user", .str (["hello"].headD "")⟩)
          ([.llmCall,
            .printLine ("Agent: " ++ (pyGet (callLLM (.response (some [("next_state", .str "middle"),
              ("require_input", .str "1"), ("message", .str "hi")]))) "message" (.str "")).pyStr)] ++
            [] ++ tr3 ++ [.readLine (["hello"].headD "")]) ["hello"].tail :=
  (c10_require_input_exact_string
    ⟨some "start", [("start", ⟨"p", []⟩), ("middle", ⟨"q", []⟩)]⟩ []
    ⟨"start", [], []⟩
    (.response (some [("next_state", .str "middle"),
      ("require_input", .str "1"), ("message", .str "hi")])) ["hello"]
    ⟨"p", []⟩ []
    (AgentState.pushTurn ⟨"start", [], []⟩
      ⟨"assistant", pyGet (callLLM (.response (some [("next_state", .str "middle"),
        ("require_input", .str "1"), ("message", .str "hi")]))) "message" (.str "")⟩)
    rfl rfl rfl rfl rfl).1 rfl

/-- A line starting "Error: " never equals a line starting "Agent: ". -/
theorem error_line_ne_agent_line (x y : String) :
    "Error: Invalid transition from \x27" ++ x ≠ "Agent: " ++ y := by
  intro h
  have hd := congrArg String.data h
  rw [String.data_append, String.data_append] at hd
  have h1 : ("Error: Invalid transition from \x27" : String).data =
      'E' :: ("rror: Invalid transition from \x27" : String).data := rfl
  have h2 : ("Agent: " : String).data = 'A' :: ("gent: " : String).data := rfl
  rw [h1, h2] at hd
  simp only [List.cons_append, List.cons.injEq] at hd
  exact absurd hd.1 (by decide)

/-- The invalid-transition error line never equals the agent message line. -/
theorem invalid_transition_line_ne_agent_line (a b y : String) :
    ("Error: Invalid transition from \x27" ++ a ++ "\x27 to \x27" ++ b ++ "\x27") ≠
      "Agent: " ++ y := by
  intro h
  apply error_line_ne_agent_line (a ++ ("\x27 to \x27" ++ (b ++ "\x27"))) y
  rw [← h]
  have : ∀ p q r : String, p ++ q ++ r = p ++ (q ++ r) := by
    intro p q r
    apply String.ext
    simp [String.data_append, List.append_assoc]
  simp only [this]

/-- The trace of a completed transition phase: one accepting decision, or
the invalid-transition error line followed by a rejecting decision. -/
theorem transitionPhase_ok_trace (cfg : Config) (spec : StateSpec) (ns : PyVal)
    (st : AgentState) (tr : List Event) (st3 : AgentState)
    (h : transitionPhase cfg spec ns st = (tr, .ok st3)) :
    tr = [.transitionDecision true] ∨
    tr = [.printLine ("Error: Invalid transition from \x27" ++ st.current_state ++
      "\x27 to \x27" ++ ns.pyStr ++ "\x27"), .transitionDecision false] := by
  unfold transitionPhase at h
  dsimp only at h
  split at h
  · exact absurd h (by simp)
  · split at h
    · injection h with htr hres
      exact Or.inl htr.symm
    · injection h with htr hres
      exact Or.inr htr.symm

/-- C6 (amended): every loop iteration that begins with a successful state
lookup and whose dispatch and membership tests complete without an
exception performs exactly one model invocation, appends the decision's
message as exactly one assistant turn, prints the agent-prefixed message
line exactly once, dispatches at most one action, and makes exactly one
transition decision. -/
theorem c6_iteration_shape (cfg : Config) (acts : Actions) (st : AgentState)
    (resp : LLMRaw) (inputs : List String) (spec : StateSpec)
    (tr2 : List Event) (st2 : AgentState)
    (hspec : cfg.states.lookup st.current_state = some spec)
    (hdisp : dispatchPhase acts (callLLM resp)
      (st.pushTurn ⟨"assistant", pyGet (callLLM resp) "message" (.str "")⟩) =
        (tr2, .ok st2))
    (hhash : (pyGet (callLLM resp) "next_state" (.str "")).hashable = true) :
    (step cfg acts st resp inputs).trace.countP Event.isLlmCall = 1 ∧
    (step cfg acts st resp inputs).trace.countP
      (Event.isPrintOf ("Agent: " ++ (pyGet (callLLM resp) "message" (.str "")).pyStr)) = 1 ∧
    (step cfg acts st resp inputs).trace.countP Event.isDispatch ≤ 1 ∧
    (step cfg acts st resp inputs).trace.countP Event.isTransitionDecision = 1 ∧
    (∃ c, (step cfg acts st resp inputs).agentState.conversation_history =
      st.conversation_history ++
        ⟨"assistant", pyGet (callLLM resp) "message" (.str "")⟩ :: c ∧
      c.countP (fun t => t.role == "assistant") = 0) := by
  obtain ⟨tr3, st3, htrans⟩ := transitionPhase_hashable cfg spec _ st2 hhash
  have hstep := step_some cfg acts st resp inputs spec tr2 tr3 st2 st3 hspec hdisp htrans
  obtain ⟨⟨c2, hc2, hc2a, hc2len⟩, _, _, htr2⟩ := dispatchPhase_ok _ _ _ _ _ hdisp
  have htr3 := transitionPhase_ok_trace _ _ _ _ _ _ htrans
  obtain ⟨hconv3, _, _⟩ := transitionPhase_ok _ _ _ _ _ _ htrans
  have hbeqE : (("Error: Invalid transition from \x27" ++ st2.current_state ++
      "\x27 to \x27" ++ (pyGet (callLLM resp) "next_state" (.str "")).pyStr ++ "\x27") ==
      ("Agent: " ++ (pyGet (callLLM resp) "message" (.str "")).pyStr)) = false :=
    beq_eq_false_iff_ne.mpr (invalid_transition_line_ne_agent_line _ _ _)
  have hconvGoal : st3.conversation_history =
      st.conversation_history ++
        ⟨"assistant", pyGet (callLLM resp) "message" (.str "")⟩ :: c2 := by
    rw [hconv3, hc2]
    show (st.conversation_history ++ [(⟨"assistant", pyGet (callLLM resp) "message" (.str "")⟩ : Turn)]) ++ c2 = _
    simp
  by_cases hterm : ((pyGet (callLLM resp) "next_state" (.str "")).eqStr "exit" ||
      (pyGet (callLLM resp) "next_state" (.str "")).eqStr "") = true
  · rw [if_pos hterm] at hstep
    rw [hstep]
    refine ⟨?_, ?_, ?_, ?_, ⟨c2, hconvGoal, hc2a⟩⟩ <;>
      rcases htr2 with h2 | ⟨a, h2⟩ <;> subst h2 <;>
      rcases htr3 with h3 | h3 <;> subst h3 <;>
      simp [StepOut.trace, List.countP_append, List.countP_cons, Event.isLlmCall,
        Event.isPrintOf, Event.isDispatch, Event.isTransitionDecision, hbeqE]
  · rw [if_neg hterm] at hstep
    by_cases hri : ((pyGet (callLLM resp) "require_input" (.str "1")).eqStr "1") = true
    · rw [if_pos hri] at hstep
      rw [hstep]
      refine ⟨?_, ?_, ?_, ?_,
        ⟨c2 ++ [⟨"user", .str (inputs.headD "")⟩], ?_, ?_⟩⟩
      · rcases htr2 with h2 | ⟨a, h2⟩ <;> subst h2 <;>
          rcases htr3 with h3 | h3 <;> subst h3 <;>
          simp [StepOut.trace, List.countP_append, List.countP_cons, Event.isLlmCall,
            Event.isPrintOf, Event.isDispatch, Event.isTransitionDecision, hbeqE]
      · rcases htr2 with h2 | ⟨a, h2⟩ <;> subst h2 <;>
          rcases htr3 with h3 | h3 <;> subst h3 <;>
          simp [StepOut.trace, List.countP_append, List.countP_cons, Event.isLlmCall,
            Event.isPrintOf, Event.isDispatch, Event.isTransitionDecision, hbeqE]
      · rcases htr2 with h2 | ⟨a, h2⟩ <;> subst h2 <;>
          rcases htr3 with h3 | h3 <;> subst h3 <;>
          simp [StepOut.trace, List.countP_append, List.countP_cons, Event.isLlmCall,
            Event.isPrintOf, Event.isDispatch, Event.isTransitionDecision, hbeqE]
      · rcases htr2 with h2 | ⟨a, h2⟩ <;> subst h2 <;>
          rcases htr3 with h3 | h3 <;> subst h3 <;>
          simp [StepOut.trace, List.countP_append, List.countP_cons, Event.isLlmCall,
            Event.isPrintOf, Event.isDispatch, Event.isTransitionDecision, hbeqE]
      · show (st3.pushTurn ⟨"user", .str (inputs.headD "")⟩).conversation_history = _
        show st3.conversation_history ++ [(⟨"user", .str (inputs.headD "")⟩ : Turn)] = _
        rw [hconvGoal]
        simp
      · simp [List.countP_append, List.countP_cons, hc2a]
    · rw [if_neg hri] at hstep
      rw [hstep]
      refine ⟨?_, ?_, ?_, ?_, ⟨c2, hconvGoal, hc2a⟩⟩ <;>
        rcases htr2 with h2 | ⟨a, h2⟩ <;> subst h2 <;>
        rcases htr3 with h3 | h3 <;> subst h3 <;>
        simp [StepOut.trace, List.countP_append, List.countP_cons, Event.isLlmCall,
          Event.isPrintOf, Event.isDispatch, Event.isTransitionDecision, hbeqE]

/-- Counterexample to C6 as stated: an iteration that begins with a
successful StateSpec lookup but whose dispatched action raises performs the
invocation, the append and the emission, yet makes zero transition
decisions — not exactly one. -/
theorem c6_counterexample :
    List.lookup "start" [("start", (⟨"p", []⟩ : StateSpec))] = some ⟨"p", []⟩ ∧
    (step ⟨some "start", [("start", ⟨"p", []⟩)]⟩ [("crash", fun _ => .error "oops")]
      ⟨"start", [], []⟩
      (.response (some [("action", .str "crash"), ("message", .str "m")])) []).trace.countP
        Event.isTransitionDecision = 0 ∧
    (step ⟨some "start", [("start", ⟨"p", []⟩)]⟩ [("crash", fun _ => .error "oops")]
      ⟨"start", [], []⟩
      (.response (some [("action", .str "crash"), ("message", .str "m")])) []).trace.countP
        Event.isLlmCall = 1 := by
  refine ⟨rfl, ?_, ?_⟩ <;> rfl

/-- Concrete instance of the amended C6: a clean iteration (no action, valid
transition, no input) shows the exact once/at-most-once counts. -/
theorem c6_iteration_shape_witness :
    (step ⟨some "s0", [("s0", ⟨"p", ["s1"]⟩), ("s1", ⟨"q", []⟩)]⟩ [] ⟨"s0", [], []⟩
      (.response (some [("message", .str "ok"), ("next_state", .str "s1"),
        ("require_input", .str "0")])) []).trace.countP Event.isLlmCall = 1 ∧
    (step ⟨some "s0", [("s0", ⟨"p", ["s1"]⟩), ("s1", ⟨"q", []⟩)]⟩ [] ⟨"s0", [], []⟩
      (.response (some [("message", .str "ok"), ("next_state", .str "s1"),
        ("require_input", .str "0")])) []).trace.countP
      (Event.isPrintOf ("Agent: " ++ (pyGet (callLLM (.response (some [("message", .str "ok"),
        ("next_state", .str "s1"), ("require_input", .str "0")]))) "message" (.str "")).pyStr)) = 1 ∧
    (step ⟨some "s0", [("s0", ⟨"p", ["s1"]⟩), ("s1", ⟨"q", []⟩)]⟩ [] ⟨"s0", [], []⟩
      (.response (some [("message", .str "ok"), ("next_state", .str "s1"),
        ("require_input", .str "0")])) []).trace.countP Event.isDispatch ≤ 1 ∧
    (step ⟨some "s0", [("s0", ⟨"p", ["s1"]⟩), ("s1", ⟨"q", []⟩)]⟩ [] ⟨"s0", [], []⟩
      (.response (some [("message", .str "ok"), ("next_state", .str "s1"),
        ("require_input", .str "0")])) []).trace.countP Event.isTransitionDecision = 1 ∧
    (∃ c, (step ⟨some "s0", [("s0", ⟨"p", ["s1"]⟩), ("s1", ⟨"q", []⟩)]⟩ [] ⟨"s0", [], []⟩
      (.response (some [("message", .str "ok"), ("next_state", .str "s1"),
        ("require_input", .str "0")])) []).agentState.conversation_history =
      AgentState.conversation_history ⟨"s0", [], []⟩ ++
        ⟨"assistant", pyGet (callLLM (.response (some [("message", .str "ok"),
          ("next_state", .str "s1"), ("require_input", .str "0")]))) "message" (.str "")⟩ :: c ∧
      c.countP (fun t => t.role == "assistant") = 0) :=
  c6_iteration_shape ⟨some "s0", [("s0", ⟨"p", ["s1"]⟩), ("s1", ⟨"q", []⟩)]⟩ []
    ⟨"s0", [], []⟩
    (.response (some [("message", .str "ok"), ("next_state", .str "s1"),
      ("require_input", .str "0")])) [] ⟨"p", ["s1"]⟩ []
    (AgentState.pushTurn ⟨"s0", [], []⟩
      ⟨"assistant", pyGet (callLLM (.response (some [("message", .str "ok"),
        ("next_state", .str "s1"), ("require_input", .str "0")]))) "message" (.str "")⟩)
    rfl rfl rfl
